import Mathlib

/-!
Shallow embedding of the batch workflow orchestrator of
src/app/flow_scheduler.py (classes CarCard, NeedActionItem,
PublicationRecord, FlowState, FlowScheduler).

Modelling conventions:
* Python dict payloads produced by the injected stage callables
  (ai result, mapped payload) are opaque to the orchestrator, so the
  development is parameterised over their types A and M; the Python
  literal empty dict used as a fallback argument is a scheduler field
  (emptyA, emptyM).
* A stage callable that may raise is embedded as a function into
  Except String; Except.error e models an exception whose str() is e.
* The wall clock (time.time() and datetime.now) is an explicit Nat
  argument t: one run_once call runs at clock second t, card ids embed
  int(time.time()) as toString t, log and history timestamps are
  tsStr t.
* The impure fetch_batches callable is embedded by passing the list it
  returned as an argument to runOnce.
* The Python set of processed batches is a duplicate-free String list
  with membership-guarded insertion; the dict of cards is an
  association list with dict update semantics (insertCard replaces the
  value at an existing key in place, otherwise appends).
-/

namespace FlowSpec

/-- Return record of the import_photos stage callable. -/
structure PhotoResult where
  photo_files : List String := []
  photo_urls : List String := []
deriving DecidableEq

/-- Return record of the ai_client stage callable; optional fields model
possibly absent dict keys. -/
structure AiResponse (A : Type) where
  status : Option String := none
  ai_result : Option A := none
  errors : List String := []
deriving DecidableEq

/-- Return record of the mapper stage callable. -/
structure MapResponse (M : Type) where
  status : Option String := none
  mapped_avito : Option M := none
  errors : List String := []
deriving DecidableEq

/-- Return record of the poster stage callable. -/
structure PostResponse where
  status : Option String := none
  post_url : Option String := none
  errors : List String := []
deriving DecidableEq

/-- CarCard dataclass of flow_scheduler.py. -/
structure CarCard (A M : Type) where
  card_id : String
  batch_id : String
  status : String
  photo_files : List String := []
  photo_urls : List String := []
  template_id : String := "sale"
  ai_result : Option A := none
  mapped_avito : Option M := none
  post_url : Option String := none
  logs : List String := []
  errors : List String := []
deriving DecidableEq

/-- NeedActionItem dataclass. -/
structure NeedActionItem where
  card_id : String
  batch_id : String
  reason : String
  requires_manual_confirmation : Bool := true
deriving DecidableEq

/-- PublicationRecord dataclass. -/
structure PublicationRecord where
  card_id : String
  batch_id : String
  post_url : Option String
  status : String
  published_at : String
deriving DecidableEq

/-- Timestamp string at clock second t (datetime.now rendering). -/
def tsStr (t : Nat) : String :=
  toString t

/-- CarCard.log: append a timestamped message to the card's logs. -/
def CarCard.log {A M : Type} (c : CarCard A M) (t : Nat) (message : String) : CarCard A M :=
  { c with logs := c.logs ++ [tsStr t ++ " " ++ message] }

/-- FlowState dataclass: cards dict, need-action queue, history,
processed-batches set. -/
structure FlowState (A M : Type) where
  cards : List (String × CarCard A M) := []
  need_action : List NeedActionItem := []
  history : List PublicationRecord := []
  processed_batches : List String := []
deriving DecidableEq

/-- The empty FlowState (FlowState() with all dataclass defaults). -/
def emptyState (A M : Type) : FlowState A M :=
  {}

/-- FlowState.add_history: append a PublicationRecord for the card. -/
def FlowState.add_history {A M : Type} (st : FlowState A M) (card : CarCard A M) (t : Nat) :
    FlowState A M :=
  { st with
      history := st.history ++
        [{ card_id := card.card_id, batch_id := card.batch_id, post_url := card.post_url,
           status := card.status, published_at := tsStr t }] }

/-- FlowState.add_need_action: append a NeedActionItem for the card. -/
def FlowState.add_need_action {A M : Type} (st : FlowState A M) (card : CarCard A M)
    (reason : String) : FlowState A M :=
  { st with
      need_action := st.need_action ++
        [{ card_id := card.card_id, batch_id := card.batch_id, reason := reason }] }

/-- FlowState.resolve_need_action: drop every queue entry whose card_id
matches and report whether the queue shrank. -/
def FlowState.resolve_need_action {A M : Type} (st : FlowState A M) (card_id : String) :
    FlowState A M × Bool :=
  let before := st.need_action.length
  let kept := st.need_action.filter (fun item => item.card_id != card_id)
  ({ st with need_action := kept }, decide (kept.length < before))

/-- The _now_id helper: pre, int(time.time()) and index joined by
underscores. -/
def nowId (pre : String) (t : Nat) (index : Nat) : String :=
  pre ++ "_" ++ toString t ++ "_" ++ toString index

/-- Python "; ".join over an error list. -/
def joinErrors (errors : List String) : String :=
  String.intercalate "; " errors

/-- Python `s or fallback` where the empty string is falsy. -/
def orFallback (s fallback : String) : String :=
  if s = "" then fallback else s

/-- Dict update on the cards association list: replace the value at an
existing key in place, otherwise append the binding. -/
def insertCard {A M : Type} : List (String × CarCard A M) → String → CarCard A M →
    List (String × CarCard A M)
  | [], k, c => [(k, c)]
  | (k', c') :: rest, k, c =>
      if k' = k then (k, c) :: rest else (k', c') :: insertCard rest k c

/-- Dict lookup on the cards association list. -/
def lookupCard {A M : Type} (cards : List (String × CarCard A M)) (k : String) :
    Option (CarCard A M) :=
  (cards.find? (fun p => p.1 == k)).map (fun p => p.2)

/-- Python set.add on the processed-batches set. -/
def addProcessed (l : List String) (b : String) : List String :=
  if l.contains b then l else l ++ [b]

/-- FlowScheduler dataclass: the injected stage callables.  The impure
fetch_batches callable is modelled by the batch-list argument of
runOnce; emptyA and emptyM model the Python empty-dict fallbacks. -/
structure FlowScheduler (A M : Type) where
  interval_minutes : Nat
  import_photos : String → Except String PhotoResult
  ai_client : List String → String → Except String (AiResponse A)
  mapper : A → List String → Except String (MapResponse M)
  poster : M → List String → Except String PostResponse
  emptyA : A
  emptyM : M

/-- FlowScheduler._ensure_card: build a fresh NEW card, log its creation
and store it in the cards dict. -/
def ensureCard {A M : Type} (st : FlowState A M) (batch_id : String) (t index : Nat) :
    CarCard A M × FlowState A M :=
  let card_id := nowId "card" t index
  let card : CarCard A M := { card_id := card_id, batch_id := batch_id, status := "NEW" }
  let card := card.log t "Card created"
  (card, { st with cards := insertCard st.cards card_id card })

/-- FlowScheduler._run_chain: run the import, generate, map and post
stages on the card, diverting to the need-action queue or failing; the
Python try/except around the body is the Except.error branches.
Returns the final card (the in-place mutated Python card) and the
state after any add_need_action / add_history calls. -/
def runChain {A M : Type} (sch : FlowScheduler A M) (st : FlowState A M)
    (card0 : CarCard A M) (t : Nat) : CarCard A M × FlowState A M :=
  let card := card0.log t "Importing photos"
  match sch.import_photos card.batch_id with
  | Except.error exc => ({ card with status := "FAILED", errors := card.errors ++ [exc] }, st)
  | Except.ok photo_result =>
    let card := { card with photo_files := photo_result.photo_files,
                            photo_urls := photo_result.photo_urls, status := "PHOTOS_READY" }
    let card := card.log t "Running AI"
    match sch.ai_client card.photo_files card.template_id with
    | Except.error exc => ({ card with status := "FAILED", errors := card.errors ++ [exc] }, st)
    | Except.ok ai_response =>
      if ai_response.status = some "NEED_ACTION" then
        let card := { card with status := "NEED_ACTION",
                                errors := card.errors ++ ai_response.errors }
        (card, st.add_need_action card
          (orFallback (joinErrors ai_response.errors) "AI validation failed"))
      else
        let card := { card with ai_result := ai_response.ai_result, status := "AI_READY" }
        let card := card.log t "Mapping to Avito"
        match sch.mapper (card.ai_result.getD sch.emptyA) card.photo_files with
        | Except.error exc =>
            ({ card with status := "FAILED", errors := card.errors ++ [exc] }, st)
        | Except.ok mapped_response =>
          if mapped_response.status = some "NEED_ACTION" then
            let card := { card with status := "NEED_ACTION",
                                    errors := card.errors ++ mapped_response.errors }
            (card, st.add_need_action card
              (orFallback (joinErrors mapped_response.errors) "Mapping failed"))
          else
            let card := { card with mapped_avito := mapped_response.mapped_avito,
                                    status := "READY_TO_POST" }
            let card := card.log t "Posting to Avito"
            match sch.poster (card.mapped_avito.getD sch.emptyM) card.photo_files with
            | Except.error exc =>
                ({ card with status := "FAILED", errors := card.errors ++ [exc] }, st)
            | Except.ok post_response =>
              let card := { card with post_url := post_response.post_url }
              if post_response.status = some "POSTED" then
                let card := { card with status := "POSTED" }
                (card, st.add_history card t)
              else if post_response.status = some "NEED_ACTION" then
                let card := { card with status := "NEED_ACTION",
                                        errors := card.errors ++ post_response.errors }
                (card, st.add_need_action card
                  (orFallback (joinErrors post_response.errors)
                    "Captcha or manual confirmation required"))
              else
                ({ card with status := "FAILED",
                             errors := card.errors ++ post_response.errors }, st)

/-- One iteration of the run_once loop body: create the card, run the
chain, keep the mutated card visible in the dict, then mark the batch
processed. -/
def processBatch {A M : Type} (sch : FlowScheduler A M) (st : FlowState A M)
    (batch_id : String) (t index : Nat) : FlowState A M :=
  let created := ensureCard st batch_id t index
  let after := runChain sch created.2 created.1 t
  let st3 := { after.2 with cards := insertCard after.2.cards after.1.card_id after.1 }
  { st3 with processed_batches := addProcessed st3.processed_batches batch_id }

/-- The new-batch filter of run_once (line 150): fetched ids not yet in
the processed-batches set, in fetch order. -/
def newBatchIds {A M : Type} (st : FlowState A M) (batch_ids : List String) : List String :=
  batch_ids.filter (fun batch_id => !st.processed_batches.contains batch_id)

/-- The enumerate loop of run_once, with 1-based index. -/
def runOnceLoop {A M : Type} (sch : FlowScheduler A M) :
    FlowState A M → List String → Nat → Nat → FlowState A M
  | st, [], _, _ => st
  | st, batch_id :: rest, t, index =>
      runOnceLoop sch (processBatch sch st batch_id t index) rest t (index + 1)

/-- FlowScheduler.run_once at clock second t, with batch_ids the list the
fetch_batches callable returned. -/
def runOnce {A M : Type} (sch : FlowScheduler A M) (st : FlowState A M)
    (batch_ids : List String) (t : Nat) : FlowState A M :=
  runOnceLoop sch st (newBatchIds st batch_ids) t 1

/-- A sequence of run_once calls (the essence of run_cycles, the sleeps
dropped): each cycle is the fetched batch list paired with its clock
second. -/
def runSequence {A M : Type} (sch : FlowScheduler A M) (st : FlowState A M)
    (cycles : List (List String × Nat)) : FlowState A M :=
  cycles.foldl (fun s c => runOnce sch s c.1 c.2) st

/-! ### Projection lemmas for the stage chain -/

section ChainLemmas

variable {A M : Type}

theorem runChain_cards (sch : FlowScheduler A M) (st : FlowState A M)
    (c : CarCard A M) (t : Nat) : (runChain sch st c t).2.cards = st.cards := by
  simp only [runChain, CarCard.log]
  repeat' split
  all_goals rfl

theorem runChain_processed (sch : FlowScheduler A M) (st : FlowState A M)
    (c : CarCard A M) (t : Nat) :
    (runChain sch st c t).2.processed_batches = st.processed_batches := by
  simp only [runChain, CarCard.log]
  repeat' split
  all_goals rfl

theorem runChain_card_id (sch : FlowScheduler A M) (st : FlowState A M)
    (c : CarCard A M) (t : Nat) : (runChain sch st c t).1.card_id = c.card_id := by
  simp only [runChain, CarCard.log]
  repeat' split
  all_goals rfl

theorem runChain_batch_id (sch : FlowScheduler A M) (st : FlowState A M)
    (c : CarCard A M) (t : Nat) : (runChain sch st c t).1.batch_id = c.batch_id := by
  simp only [runChain, CarCard.log]
  repeat' split
  all_goals rfl

/-- The card returned by the stage chain does not depend on the ambient
workflow state (the state is only written to, never read). -/
theorem runChain_fst_state_irrel (sch : FlowScheduler A M) (st st' : FlowState A M)
    (c : CarCard A M) (t : Nat) : (runChain sch st c t).1 = (runChain sch st' c t).1 := by
  simp only [runChain, CarCard.log]
  repeat' split
  all_goals rfl

/-- The stage chain is insensitive to the card id: renaming the card id
renames it in the result and changes nothing else. -/
theorem runChain_fst_card_id_congr (sch : FlowScheduler A M) (st st' : FlowState A M)
    (c : CarCard A M) (k : String) (t : Nat) :
    (runChain sch st { c with card_id := k } t).1 =
      { (runChain sch st' c t).1 with card_id := k } := by
  simp only [runChain, CarCard.log]
  repeat' split
  all_goals rfl

/-- History effect of the stage chain: a record for the final card is
appended exactly when the final status is POSTED. -/
theorem runChain_history (sch : FlowScheduler A M) (st : FlowState A M)
    (c : CarCard A M) (t : Nat) :
    ((runChain sch st c t).1.status = "POSTED" →
      (runChain sch st c t).2.history = st.history ++
        [{ card_id := (runChain sch st c t).1.card_id,
           batch_id := (runChain sch st c t).1.batch_id,
           post_url := (runChain sch st c t).1.post_url,
           status := (runChain sch st c t).1.status,
           published_at := tsStr t }]) ∧
    ((runChain sch st c t).1.status ≠ "POSTED" →
      (runChain sch st c t).2.history = st.history) := by
  simp only [runChain, CarCard.log]
  repeat' split
  all_goals
    refine ⟨fun h => ?_, fun h' => ?_⟩ <;>
      first
        | rfl
        | simp_all [FlowState.add_history, FlowState.add_need_action]

/-- Need-action effect of the stage chain: exactly one queue item
carrying the final card's id is appended when the final status is
NEED_ACTION, and the queue is untouched otherwise. -/
theorem runChain_need_action (sch : FlowScheduler A M) (st : FlowState A M)
    (c : CarCard A M) (t : Nat) :
    ((runChain sch st c t).1.status = "NEED_ACTION" →
      ∃ reason, (runChain sch st c t).2.need_action = st.need_action ++
        [{ card_id := (runChain sch st c t).1.card_id,
           batch_id := (runChain sch st c t).1.batch_id,
           reason := reason }]) ∧
    ((runChain sch st c t).1.status ≠ "NEED_ACTION" →
      (runChain sch st c t).2.need_action = st.need_action) := by
  simp only [runChain, CarCard.log]
  repeat' split
  all_goals
    refine ⟨fun h => ?_, fun h' => ?_⟩ <;>
      first
        | exact ⟨_, rfl⟩
        | rfl
        | simp_all

end ChainLemmas

/-! ### Dict and set helper lemmas -/

section DictLemmas

variable {A M : Type}

theorem lookupCard_insert_self (l : List (String × CarCard A M)) (k : String)
    (c : CarCard A M) : lookupCard (insertCard l k c) k = some c := by
  induction l with
  | nil => simp [insertCard, lookupCard]
  | cons p rest ih =>
      by_cases h : p.1 = k
      · simp [insertCard, h, lookupCard]
      · simpa [insertCard, h, lookupCard, List.find?] using ih

theorem lookupCard_insert_ne (l : List (String × CarCard A M)) (k k' : String)
    (c : CarCard A M) (h : k' ≠ k) :
    lookupCard (insertCard l k c) k' = lookupCard l k' := by
  have hkk' : (k == k') = false := by simp [Ne.symm h]
  induction l with
  | nil => simp [insertCard, lookupCard, List.find?, hkk']
  | cons p rest ih =>
      by_cases hp : p.1 = k
      · have h1 : (p.1 == k') = false := by simp [hp, Ne.symm h]
        simp [insertCard, hp, lookupCard, List.find?, hkk', h1]
      · by_cases hp' : p.1 = k'
        · simp [insertCard, h, hp', lookupCard, List.find?]
        · have h1 : (p.1 == k') = false := by simp [hp']
          simp only [insertCard, if_neg hp]
          simp only [lookupCard, List.find?] at ih ⊢
          simp [h1, ih]

theorem insertCard_insertCard (l : List (String × CarCard A M)) (k : String)
    (c c' : CarCard A M) : insertCard (insertCard l k c) k c' = insertCard l k c' := by
  induction l with
  | nil => simp [insertCard]
  | cons p rest ih =>
      by_cases h : p.1 = k
      · simp [insertCard, h]
      · simp [insertCard, h, ih]

theorem mem_insertCard (l : List (String × CarCard A M)) (k : String)
    (c : CarCard A M) (p : String × CarCard A M) (hp : p ∈ insertCard l k c) :
    p ∈ l ∨ p = (k, c) := by
  induction l with
  | nil => simpa [insertCard] using hp
  | cons q rest ih =>
      by_cases h : q.1 = k
      · rw [insertCard, if_pos h] at hp
        rcases List.mem_cons.mp hp with h1 | h1
        · exact Or.inr h1
        · exact Or.inl (List.mem_cons_of_mem _ h1)
      · rw [insertCard, if_neg h] at hp
        rcases List.mem_cons.mp hp with h1 | h1
        · exact Or.inl (h1 ▸ List.mem_cons_self _ _)
        · rcases ih h1 with h2 | h2
          · exact Or.inl (List.mem_cons_of_mem _ h2)
          · exact Or.inr h2

theorem contains_addProcessed_self (l : List String) (b : String) :
    (addProcessed l b).contains b = true := by
  by_cases h : b ∈ l <;> simp [addProcessed, List.elem_iff, h]

theorem contains_addProcessed_mono (l : List String) (b x : String)
    (h : l.contains x = true) : (addProcessed l b).contains x = true := by
  by_cases hb : b ∈ l <;> simp_all [addProcessed, List.elem_iff]

theorem contains_addProcessed_elim (l : List String) (b x : String)
    (h : (addProcessed l b).contains x = true) : l.contains x = true ∨ x = b := by
  by_cases hb : b ∈ l <;> simp_all [addProcessed, List.elem_iff]

end DictLemmas

/-! ### run_once loop lemmas -/

section LoopLemmas

variable {A M : Type}

theorem ensureCard_fst (st : FlowState A M) (b : String) (t i : Nat) :
    (ensureCard st b t i).1 =
      { card_id := nowId "card" t i, batch_id := b, status := "NEW",
        logs := [tsStr t ++ " " ++ "Card created"] } := by
  rfl

theorem ensureCard_snd (st : FlowState A M) (b : String) (t i : Nat) :
    (ensureCard st b t i).2 =
      { st with cards := insertCard st.cards (nowId "card" t i) (ensureCard st b t i).1 } := by
  rfl

theorem processBatch_processed (sch : FlowScheduler A M) (st : FlowState A M)
    (b : String) (t i : Nat) :
    (processBatch sch st b t i).processed_batches =
      addProcessed st.processed_batches b := by
  simp only [processBatch, ensureCard, runChain_processed]

theorem processBatch_cards (sch : FlowScheduler A M) (st : FlowState A M)
    (b : String) (t i : Nat) :
    (processBatch sch st b t i).cards =
      insertCard st.cards (nowId "card" t i)
        (runChain sch (ensureCard st b t i).2 (ensureCard st b t i).1 t).1 := by
  simp only [processBatch, runChain_cards, runChain_card_id, ensureCard_fst, ensureCard_snd]
  exact insertCard_insertCard _ _ _ _

theorem runOnceLoop_processed_mono (sch : FlowScheduler A M) (l : List String)
    (t : Nat) : ∀ (st : FlowState A M) (i : Nat) (x : String),
    st.processed_batches.contains x = true →
    (runOnceLoop sch st l t i).processed_batches.contains x = true := by
  induction l with
  | nil => intro st i x h; simpa [runOnceLoop] using h
  | cons b rest ih =>
      intro st i x h
      rw [runOnceLoop]
      exact ih _ _ x (by rw [processBatch_processed]; exact contains_addProcessed_mono _ _ _ h)

theorem runOnceLoop_processed_of_mem (sch : FlowScheduler A M) (l : List String)
    (t : Nat) : ∀ (st : FlowState A M) (i : Nat) (x : String), x ∈ l →
    (runOnceLoop sch st l t i).processed_batches.contains x = true := by
  induction l with
  | nil => intro st i x h; exact absurd h (List.not_mem_nil x)
  | cons b rest ih =>
      intro st i x h
      rw [runOnceLoop]
      rcases List.mem_cons.mp h with h1 | h1
      · subst h1
        exact runOnceLoop_processed_mono sch rest t _ _ x
          (by rw [processBatch_processed]; exact contains_addProcessed_self _ _)
      · exact ih _ _ x h1

theorem runOnce_processed_contains (sch : FlowScheduler A M) (st : FlowState A M)
    (batch_ids : List String) (t : Nat) (x : String) (hx : x ∈ batch_ids) :
    (runOnce sch st batch_ids t).processed_batches.contains x = true := by
  rw [runOnce]
  by_cases h : st.processed_batches.contains x = true
  · exact runOnceLoop_processed_mono sch _ t st 1 x h
  · refine runOnceLoop_processed_of_mem sch _ t st 1 x ?_
    simp only [newBatchIds, List.mem_filter]
    exact ⟨hx, by simp_all⟩

theorem newBatchIds_eq_nil (st : FlowState A M) (batch_ids : List String)
    (h : ∀ x ∈ batch_ids, st.processed_batches.contains x = true) :
    newBatchIds st batch_ids = [] := by
  rw [newBatchIds, List.filter_eq_nil_iff]
  intro a ha
  have hm : a ∈ st.processed_batches := List.elem_iff.mp (h a ha)
  simp [hm, List.elem_iff]

end LoopLemmas

/-! ### Concrete stage functions for witnesses -/

/-- A concrete scheduler whose stages all succeed and post. -/
def okSched : FlowScheduler Nat Nat where
  interval_minutes := 0
  import_photos := fun b => Except.ok { photo_files := ["data/" ++ b ++ "/01.jpg"] }
  ai_client := fun _ _ => Except.ok { status := some "AI_READY", ai_result := some 1 }
  mapper := fun _ _ => Except.ok { status := some "READY_TO_POST", mapped_avito := some 2 }
  poster := fun _ _ => Except.ok { status := some "POSTED", post_url := some "https://a/x" }
  emptyA := 0
  emptyM := 0

/-! ### Claim theorems -/

/-- C1: run_once is idempotent: a second run_once over the same fetched
batch list creates no new cards and leaves the whole state, in
particular processed_batches, exactly as the first call left it. -/
theorem C1_runOnce_idempotent {A M : Type} (sch : FlowScheduler A M)
    (st : FlowState A M) (batch_ids : List String) (t1 t2 : Nat) :
    runOnce sch (runOnce sch st batch_ids t1) batch_ids t2 =
      runOnce sch st batch_ids t1 := by
  have hall : ∀ x ∈ batch_ids,
      (runOnce sch st batch_ids t1).processed_batches.contains x = true :=
    fun x hx => runOnce_processed_contains sch st batch_ids t1 x hx
  conv_lhs => rw [runOnce]
  rw [newBatchIds_eq_nil _ _ hall]
  rfl

/-- C2: every admitted batch id (fetched and not yet processed) is in
processed_batches after run_once, with no assumption on how its card
ended, so no later cycle ever admits it again. -/
theorem C2_admission_marked {A M : Type} (sch : FlowScheduler A M)
    (st : FlowState A M) (batch_ids : List String) (t : Nat) (b : String)
    (hb : b ∈ batch_ids) (hnew : st.processed_batches.contains b = false) :
    (runOnce sch st batch_ids t).processed_batches.contains b = true ∧
    ∀ later_ids : List String,
      b ∉ newBatchIds (runOnce sch st batch_ids t) later_ids := by
  have h1 := runOnce_processed_contains sch st batch_ids t b hb
  refine ⟨h1, fun later_ids hmem => ?_⟩
  rw [newBatchIds] at hmem
  have h2 := List.of_mem_filter hmem
  simp at h2
  exact h2 (List.elem_iff.mp h1)

/-- Witness for C2 at a concrete scheduler and batch list. -/
theorem C2_admission_marked_witness :
    ("b1" ∈ ["b1", "b2"]) ∧
    ((emptyState Nat Nat).processed_batches.contains "b1" = false) ∧
    ((runOnce okSched (emptyState Nat Nat) ["b1", "b2"] 7).processed_batches.contains "b1" =
        true ∧
      ∀ later_ids : List String,
        "b1" ∉ newBatchIds (runOnce okSched (emptyState Nat Nat) ["b1", "b2"] 7) later_ids) :=
  ⟨by decide, by decide,
    C2_admission_marked okSched (emptyState Nat Nat) ["b1", "b2"] 7 "b1"
      (by decide) (by decide)⟩

/-- A concrete scheduler whose mapper stage raises. -/
def failMapSched : FlowScheduler Nat Nat where
  interval_minutes := 0
  import_photos := fun b => Except.ok { photo_files := [b] }
  ai_client := fun _ _ => Except.ok { status := some "AI_READY", ai_result := some 5 }
  mapper := fun _ _ => Except.error "mapper exploded"
  poster := fun _ _ => Except.ok { status := some "POSTED" }
  emptyA := 0
  emptyM := 0

/-- C3: a stage raising an exception aborts the chain at that stage,
the final status is FAILED, the exception text is appended to the
card's errors, and every field already written by an earlier stage
(photo_files, ai_result, mapped_avito) keeps its value; the state sees
no queue or history append.  One conjunct per raising stage. -/
theorem C3_hard_failure {A M : Type} (sch : FlowScheduler A M) (st : FlowState A M)
    (c : CarCard A M) (t : Nat) :
    (∀ e, sch.import_photos c.batch_id = Except.error e →
      (runChain sch st c t).1.status = "FAILED" ∧
      (runChain sch st c t).1.errors = c.errors ++ [e] ∧
      (runChain sch st c t).1.ai_result = c.ai_result ∧
      (runChain sch st c t).1.mapped_avito = c.mapped_avito ∧
      (runChain sch st c t).1.post_url = c.post_url ∧
      (runChain sch st c t).2 = st) ∧
    (∀ pr e, sch.import_photos c.batch_id = Except.ok pr →
      sch.ai_client pr.photo_files c.template_id = Except.error e →
      (runChain sch st c t).1.status = "FAILED" ∧
      (runChain sch st c t).1.errors = c.errors ++ [e] ∧
      (runChain sch st c t).1.photo_files = pr.photo_files ∧
      (runChain sch st c t).1.ai_result = c.ai_result ∧
      (runChain sch st c t).1.mapped_avito = c.mapped_avito ∧
      (runChain sch st c t).1.post_url = c.post_url ∧
      (runChain sch st c t).2 = st) ∧
    (∀ pr ar e, sch.import_photos c.batch_id = Except.ok pr →
      sch.ai_client pr.photo_files c.template_id = Except.ok ar →
      ar.status ≠ some "NEED_ACTION" →
      sch.mapper (ar.ai_result.getD sch.emptyA) pr.photo_files = Except.error e →
      (runChain sch st c t).1.status = "FAILED" ∧
      (runChain sch st c t).1.errors = c.errors ++ [e] ∧
      (runChain sch st c t).1.photo_files = pr.photo_files ∧
      (runChain sch st c t).1.ai_result = ar.ai_result ∧
      (runChain sch st c t).1.mapped_avito = c.mapped_avito ∧
      (runChain sch st c t).1.post_url = c.post_url ∧
      (runChain sch st c t).2 = st) ∧
    (∀ pr ar mr e, sch.import_photos c.batch_id = Except.ok pr →
      sch.ai_client pr.photo_files c.template_id = Except.ok ar →
      ar.status ≠ some "NEED_ACTION" →
      sch.mapper (ar.ai_result.getD sch.emptyA) pr.photo_files = Except.ok mr →
      mr.status ≠ some "NEED_ACTION" →
      sch.poster (mr.mapped_avito.getD sch.emptyM) pr.photo_files = Except.error e →
      (runChain sch st c t).1.status = "FAILED" ∧
      (runChain sch st c t).1.errors = c.errors ++ [e] ∧
      (runChain sch st c t).1.photo_files = pr.photo_files ∧
      (runChain sch st c t).1.ai_result = ar.ai_result ∧
      (runChain sch st c t).1.mapped_avito = mr.mapped_avito ∧
      (runChain sch st c t).1.post_url = c.post_url ∧
      (runChain sch st c t).2 = st) := by
  refine ⟨fun e h1 => ?_, fun pr e h1 h2 => ?_, fun pr ar e h1 h2 hna h3 => ?_,
    fun pr ar mr e h1 h2 hna h3 hmna h4 => ?_⟩ <;>
    simp [runChain, CarCard.log, h1, *]

/-- Witness for C3 at a scheduler whose mapper raises after the AI stage
has set ai_result. -/
theorem C3_hard_failure_witness :
    (failMapSched.import_photos "b7" = Except.ok { photo_files := ["b7"] }) ∧
    (failMapSched.ai_client ["b7"] "sale" =
      Except.ok { status := some "AI_READY", ai_result := some 5 }) ∧
    ((some "AI_READY" : Option String) ≠ some "NEED_ACTION") ∧
    (failMapSched.mapper 5 ["b7"] = Except.error "mapper exploded") ∧
    ((runChain failMapSched (emptyState Nat Nat)
        { card_id := "c1", batch_id := "b7", status := "NEW" } 9).1.status = "FAILED" ∧
      (runChain failMapSched (emptyState Nat Nat)
        { card_id := "c1", batch_id := "b7", status := "NEW" } 9).1.errors =
          ([] : List String) ++ ["mapper exploded"] ∧
      (runChain failMapSched (emptyState Nat Nat)
        { card_id := "c1", batch_id := "b7", status := "NEW" } 9).1.photo_files = ["b7"] ∧
      (runChain failMapSched (emptyState Nat Nat)
        { card_id := "c1", batch_id := "b7", status := "NEW" } 9).1.ai_result = some 5 ∧
      (runChain failMapSched (emptyState Nat Nat)
        { card_id := "c1", batch_id := "b7", status := "NEW" } 9).1.mapped_avito = none ∧
      (runChain failMapSched (emptyState Nat Nat)
        { card_id := "c1", batch_id := "b7", status := "NEW" } 9).1.post_url = none ∧
      (runChain failMapSched (emptyState Nat Nat)
        { card_id := "c1", batch_id := "b7", status := "NEW" } 9).2 = emptyState Nat Nat) :=
  ⟨rfl, rfl, by decide, rfl,
    (C3_hard_failure failMapSched (emptyState Nat Nat)
        { card_id := "c1", batch_id := "b7", status := "NEW" } 9).2.2.1
      { photo_files := ["b7"] } { status := some "AI_READY", ai_result := some 5 }
      "mapper exploded" rfl rfl (by decide) rfl⟩

/-- A concrete scheduler whose poster stage reports NEED_ACTION. -/
def naSched : FlowScheduler Nat Nat where
  interval_minutes := 0
  import_photos := fun b => Except.ok { photo_files := [b] }
  ai_client := fun _ _ => Except.ok { status := some "AI_READY", ai_result := some 5 }
  mapper := fun _ _ => Except.ok { status := some "READY_TO_POST", mapped_avito := some 6 }
  poster := fun _ _ =>
    Except.ok { status := some "NEED_ACTION", errors := ["Captcha required"] }
  emptyA := 0
  emptyM := 0

/-- A workflow state holding one need-action queue entry. -/
def oneItemState : FlowState Nat Nat :=
  { need_action := [{ card_id := "c9", batch_id := "b9", reason := "r" }] }

/-- C5: diverting a card to NEED_ACTION appends exactly one queue item
carrying that card's id; resolve_need_action removes every entry with
the given card id and returns true iff at least one entry was removed;
with no matching entry it returns false and leaves the state
unchanged. -/
theorem C5_need_action_round_trip {A M : Type} (sch : FlowScheduler A M)
    (st : FlowState A M) (c : CarCard A M) (t : Nat) (st' : FlowState A M)
    (cid : String) :
    ((runChain sch st c t).1.status = "NEED_ACTION" →
      ∃ reason, (runChain sch st c t).2.need_action = st.need_action ++
        [{ card_id := (runChain sch st c t).1.card_id,
           batch_id := (runChain sch st c t).1.batch_id, reason := reason }]) ∧
    ((st'.resolve_need_action cid).1.need_action =
      st'.need_action.filter (fun item => item.card_id != cid)) ∧
    ((st'.resolve_need_action cid).2 = true ↔
      ∃ item ∈ st'.need_action, item.card_id = cid) ∧
    ((∀ item ∈ st'.need_action, item.card_id ≠ cid) →
      st'.resolve_need_action cid = (st', false)) := by
  refine ⟨(runChain_need_action sch st c t).1, rfl, ?_, fun hnone => ?_⟩
  · rw [FlowState.resolve_need_action]
    simp only [decide_eq_true_eq, List.length_filter_lt_length_iff_exists]
    simp
  · have hkeep : st'.need_action.filter (fun item => item.card_id != cid) =
        st'.need_action := by
      rw [List.filter_eq_self]
      intro a ha
      simpa using hnone a ha
    rw [FlowState.resolve_need_action]
    simp only [hkeep]
    simp

/-- Witness for C5: a captcha diversion at the posting stage, and
resolution of a present and of an absent card id. -/
theorem C5_need_action_round_trip_witness :
    ((runChain naSched (emptyState Nat Nat)
        { card_id := "c1", batch_id := "b7", status := "NEW" } 3).1.status =
      "NEED_ACTION") ∧
    ((∃ reason, (runChain naSched (emptyState Nat Nat)
        { card_id := "c1", batch_id := "b7", status := "NEW" } 3).2.need_action =
      (emptyState Nat Nat).need_action ++
        [{ card_id := (runChain naSched (emptyState Nat Nat)
              { card_id := "c1", batch_id := "b7", status := "NEW" } 3).1.card_id,
           batch_id := (runChain naSched (emptyState Nat Nat)
              { card_id := "c1", batch_id := "b7", status := "NEW" } 3).1.batch_id,
           reason := reason }]) ∧
      ((oneItemState.resolve_need_action "c9").1.need_action =
        oneItemState.need_action.filter (fun item => item.card_id != "c9")) ∧
      ((oneItemState.resolve_need_action "c9").2 = true ↔
        ∃ item ∈ oneItemState.need_action, item.card_id = "c9")) ∧
    ((∀ item ∈ oneItemState.need_action, item.card_id ≠ "zz") ∧
      oneItemState.resolve_need_action "zz" = (oneItemState, false)) :=
  ⟨by decide,
    ⟨(C5_need_action_round_trip naSched (emptyState Nat Nat)
        { card_id := "c1", batch_id := "b7", status := "NEW" } 3 oneItemState "c9").1
      (by decide),
     (C5_need_action_round_trip naSched (emptyState Nat Nat)
        { card_id := "c1", batch_id := "b7", status := "NEW" } 3 oneItemState "c9").2.1,
     (C5_need_action_round_trip naSched (emptyState Nat Nat)
        { card_id := "c1", batch_id := "b7", status := "NEW" } 3 oneItemState "c9").2.2.1⟩,
    ⟨by decide,
     (C5_need_action_round_trip naSched (emptyState Nat Nat)
        { card_id := "c1", batch_id := "b7", status := "NEW" } 3 oneItemState "zz").2.2.2
      (by decide)⟩⟩

/-- C10: the generate and map stages are treated as successful for any
result status other than the exact string NEED_ACTION: replacing the
reported status by any other value (a FAILED marker, garbage, or an
absent field, modelled by none) leaves the whole run unchanged, i.e.
the card still advances and the next stage still runs; only the
posting stage has a third outcome, every non-POSTED non-NEED_ACTION
poster status failing the card. -/
theorem C10_only_need_action_diverts {A M : Type} (sch : FlowScheduler A M)
    (st : FlowState A M) (c : CarCard A M) (t : Nat) :
    (∀ pr ar s', sch.import_photos c.batch_id = Except.ok pr →
      sch.ai_client pr.photo_files c.template_id = Except.ok ar →
      ar.status ≠ some "NEED_ACTION" → s' ≠ some "NEED_ACTION" →
      runChain { sch with ai_client := fun _ _ => Except.ok { ar with status := s' } }
          st c t =
        runChain sch st c t) ∧
    (∀ pr ar mr s', sch.import_photos c.batch_id = Except.ok pr →
      sch.ai_client pr.photo_files c.template_id = Except.ok ar →
      ar.status ≠ some "NEED_ACTION" →
      sch.mapper (ar.ai_result.getD sch.emptyA) pr.photo_files = Except.ok mr →
      mr.status ≠ some "NEED_ACTION" → s' ≠ some "NEED_ACTION" →
      runChain { sch with mapper := fun _ _ => Except.ok { mr with status := s' } }
          st c t =
        runChain sch st c t) ∧
    (∀ pr ar mr resp, sch.import_photos c.batch_id = Except.ok pr →
      sch.ai_client pr.photo_files c.template_id = Except.ok ar →
      ar.status ≠ some "NEED_ACTION" →
      sch.mapper (ar.ai_result.getD sch.emptyA) pr.photo_files = Except.ok mr →
      mr.status ≠ some "NEED_ACTION" →
      sch.poster (mr.mapped_avito.getD sch.emptyM) pr.photo_files = Except.ok resp →
      resp.status ≠ some "POSTED" → resp.status ≠ some "NEED_ACTION" →
      (runChain sch st c t).1.status = "FAILED") := by
  refine ⟨fun pr ar s' h1 h2 hna hs => ?_, fun pr ar mr s' h1 h2 hna h3 hmna hs => ?_,
    fun pr ar mr resp h1 h2 hna h3 hmna h4 hp1 hp2 => ?_⟩ <;>
    simp [runChain, CarCard.log, h1, h2, hna, *]

/-- Witness for C10: an absent generate status and a FAILED map status
both advance the chain exactly as the documented success statuses. -/
theorem C10_only_need_action_diverts_witness :
    ((some "AI_READY" : Option String) ≠ some "NEED_ACTION") ∧
    ((none : Option String) ≠ some "NEED_ACTION") ∧
    ((some "FAILED" : Option String) ≠ some "NEED_ACTION") ∧
    (runChain { okSched with
        ai_client := fun _ _ =>
          Except.ok { (({ status := some "AI_READY", ai_result := some 1 }) : AiResponse Nat)
            with status := none } }
        (emptyState Nat Nat) { card_id := "c1", batch_id := "b7", status := "NEW" } 4 =
      runChain okSched (emptyState Nat Nat)
        { card_id := "c1", batch_id := "b7", status := "NEW" } 4) ∧
    (runChain { okSched with
        mapper := fun _ _ =>
          Except.ok { (({ status := some "READY_TO_POST", mapped_avito := some 2 }) :
            MapResponse Nat) with status := some "FAILED" } }
        (emptyState Nat Nat) { card_id := "c1", batch_id := "b7", status := "NEW" } 4 =
      runChain okSched (emptyState Nat Nat)
        { card_id := "c1", batch_id := "b7", status := "NEW" } 4) :=
  ⟨by decide, by decide, by decide,
    (C10_only_need_action_diverts okSched (emptyState Nat Nat)
        { card_id := "c1", batch_id := "b7", status := "NEW" } 4).1
      { photo_files := ["data/b7/01.jpg"] }
      { status := some "AI_READY", ai_result := some 1 } none rfl rfl
      (by decide) (by decide),
    (C10_only_need_action_diverts okSched (emptyState Nat Nat)
        { card_id := "c1", batch_id := "b7", status := "NEW" } 4).2.1
      { photo_files := ["data/b7/01.jpg"] }
      { status := some "AI_READY", ai_result := some 1 }
      { status := some "READY_TO_POST", mapped_avito := some 2 } (some "FAILED")
      rfl rfl (by decide) rfl (by decide) (by decide)⟩

/-- A concrete scheduler whose poster reports FAILED yet carries a
post_url in its result. -/
def failWithUrlSched : FlowScheduler Nat Nat where
  interval_minutes := 0
  import_photos := fun b => Except.ok { photo_files := [b] }
  ai_client := fun _ _ => Except.ok { status := some "AI_READY", ai_result := some 5 }
  mapper := fun _ _ => Except.ok { status := some "READY_TO_POST", mapped_avito := some 6 }
  poster := fun _ _ => Except.ok { status := some "FAILED", post_url := some "https://a/dead" }
  emptyA := 0
  emptyM := 0

/-- Counterexample to C8: line 130 of flow_scheduler.py copies the
poster result's post_url before inspecting its status, so a poster
result with status FAILED and a post_url yields a FAILED card whose
post_url is non-null. -/
theorem C8_counterexample :
    (runChain failWithUrlSched (emptyState Nat Nat)
      { card_id := "c1", batch_id := "b7", status := "NEW" } 2).1.status = "FAILED" ∧
    (runChain failWithUrlSched (emptyState Nat Nat)
      { card_id := "c1", batch_id := "b7", status := "NEW" } 2).1.post_url =
        some "https://a/dead" := by
  decide

/-- C8 amended: after the stage chain, post_url either still has its
value from before the chain (null for a freshly created card) — which
happens exactly when the chain never obtained a poster result — or it
equals the post_url field of the poster's result verbatim, whatever
status that result reported.  So post_url is guaranteed null for cards
that fail or divert before the posting stage returns, but a poster
result may plant a post_url on a NEED_ACTION or FAILED card. -/
theorem C8_amended_post_url_from_poster {A M : Type} (sch : FlowScheduler A M)
    (st : FlowState A M) (c : CarCard A M) (t : Nat) :
    (runChain sch st c t).1.post_url = c.post_url ∨
    ∃ pr ar mr resp,
      sch.import_photos c.batch_id = Except.ok pr ∧
      sch.ai_client pr.photo_files c.template_id = Except.ok ar ∧
      ar.status ≠ some "NEED_ACTION" ∧
      sch.mapper (ar.ai_result.getD sch.emptyA) pr.photo_files = Except.ok mr ∧
      mr.status ≠ some "NEED_ACTION" ∧
      sch.poster (mr.mapped_avito.getD sch.emptyM) pr.photo_files = Except.ok resp ∧
      (runChain sch st c t).1.post_url = resp.post_url := by
  cases h1 : sch.import_photos c.batch_id with
  | error e => left; simp [runChain, CarCard.log, h1]
  | ok pr =>
    cases h2 : sch.ai_client pr.photo_files c.template_id with
    | error e => left; simp [runChain, CarCard.log, h1, h2]
    | ok ar =>
      by_cases hna : ar.status = some "NEED_ACTION"
      · left; simp [runChain, CarCard.log, h1, h2, hna]
      · cases h3 : sch.mapper (ar.ai_result.getD sch.emptyA) pr.photo_files with
        | error e => left; simp [runChain, CarCard.log, h1, h2, hna, h3]
        | ok mr =>
          by_cases hmna : mr.status = some "NEED_ACTION"
          · left; simp [runChain, CarCard.log, h1, h2, hna, h3, hmna]
          · cases h4 : sch.poster (mr.mapped_avito.getD sch.emptyM) pr.photo_files with
            | error e => left; simp [runChain, CarCard.log, h1, h2, hna, h3, hmna, h4]
            | ok resp =>
              right
              refine ⟨pr, ar, mr, resp, rfl, h2, hna, h3, hmna, h4, ?_⟩
              simp only [runChain, CarCard.log, h1, h2, h3, h4]
              rw [if_neg hna, if_neg hmna]
              repeat' split
              all_goals rfl

/-- Counterexample to C7: two run_once calls in the same wall-clock
second (t = 5) both assign the id card_5_1, so the card created for
batch a in the first call and the card created for batch b in the
second call share one id, the second overwriting the first in the
cards dict: both batches were admitted (processed_batches holds both)
yet a single card entry remains, now pointing at batch b. -/
theorem C7_counterexample :
    (runOnce okSched (emptyState Nat Nat) ["a"] 5).cards.map (fun p => p.1) =
      ["card_5_1"] ∧
    (runOnce okSched (runOnce okSched (emptyState Nat Nat) ["a"] 5) ["b"] 5).cards.map
      (fun p => p.1) = ["card_5_1"] ∧
    (runOnce okSched (runOnce okSched (emptyState Nat Nat) ["a"] 5) ["b"] 5).processed_batches =
      ["a", "b"] ∧
    (lookupCard (runOnce okSched (runOnce okSched (emptyState Nat Nat) ["a"] 5) ["b"] 5).cards
        "card_5_1").map (fun c => c.batch_id) = some "b" := by
  decide

/-- Counterexample to C9: a fetch result repeating one batch id passes
the admission filter twice, because the filter is computed before the
loop starts, so one run_once creates two cards for batch b. -/
theorem C9_counterexample :
    (runOnce okSched (emptyState Nat Nat) ["b", "b"] 0).cards.map
        (fun p => p.2.batch_id) = ["b", "b"] ∧
    (runOnce okSched (emptyState Nat Nat) ["b", "b"] 0).cards.length = 2 := by
  decide

/-! ### Digit lemmas: card ids parse back into their clock and index -/

section DigitLemmas

theorem digitChar_isDigit : ∀ m, m < 10 → (Nat.digitChar m).isDigit = true := by
  decide

theorem toDigitsCore_isDigit : ∀ (fuel n : Nat) (ds : List Char),
    (∀ c ∈ ds, c.isDigit = true) → ∀ c ∈ Nat.toDigitsCore 10 fuel n ds, c.isDigit = true := by
  intro fuel
  induction fuel with
  | zero => intro n ds h c hc; rw [Nat.toDigitsCore] at hc; exact h c hc
  | succ f ih =>
      intro n ds h c hc
      simp only [Nat.toDigitsCore] at hc
      by_cases h0 : n / 10 = 0
      · rw [if_pos h0] at hc
        rcases List.mem_cons.mp hc with h1 | h1
        · subst h1; exact digitChar_isDigit _ (Nat.mod_lt _ (by omega))
        · exact h c h1
      · rw [if_neg h0] at hc
        refine ih _ _ (fun c' hc' => ?_) c hc
        rcases List.mem_cons.mp hc' with h1 | h1
        · subst h1; exact digitChar_isDigit _ (Nat.mod_lt _ (by omega))
        · exact h c' h1

theorem toDigitsCore_append : ∀ (fuel n : Nat) (ds : List Char),
    Nat.toDigitsCore 10 fuel n ds = Nat.toDigitsCore 10 fuel n [] ++ ds := by
  intro fuel
  induction fuel with
  | zero => intro n ds; rw [Nat.toDigitsCore, Nat.toDigitsCore]; rfl
  | succ f ih =>
      intro n ds
      simp only [Nat.toDigitsCore]
      by_cases h0 : n / 10 = 0
      · rw [if_pos h0, if_pos h0]; rfl
      · rw [if_neg h0, if_neg h0, ih (n / 10) ((n % 10).digitChar :: ds),
          ih (n / 10) [(n % 10).digitChar]]
        simp

/-- Numeric value of a digit character (proof infrastructure). -/
def charVal (c : Char) : Nat :=
  c.toNat - 48

/-- Decode a big-endian digit string (proof infrastructure). -/
def decodeDigits (l : List Char) : Nat :=
  l.foldl (fun a c => 10 * a + charVal c) 0

theorem charVal_digitChar : ∀ m, m < 10 → charVal (Nat.digitChar m) = m := by
  decide

theorem decodeDigits_append_one (xs : List Char) (c : Char) :
    decodeDigits (xs ++ [c]) = 10 * decodeDigits xs + charVal c := by
  simp [decodeDigits, List.foldl_append]

theorem decode_toDigitsCore : ∀ (fuel n : Nat), n + 1 ≤ fuel →
    decodeDigits (Nat.toDigitsCore 10 fuel n []) = n := by
  intro fuel
  induction fuel with
  | zero => intro n h; omega
  | succ f ih =>
      intro n h
      simp only [Nat.toDigitsCore]
      by_cases h0 : n / 10 = 0
      · rw [if_pos h0]
        have hn : n < 10 := (Nat.div_eq_zero_iff (by omega)).mp h0
        simp [decodeDigits, Nat.mod_eq_of_lt hn]
        exact charVal_digitChar n hn
      · rw [if_neg h0, toDigitsCore_append, decodeDigits_append_one]
        have hpos : 0 < n := by
          rcases Nat.eq_zero_or_pos n with h1 | h1
          · exact absurd (by simp [h1]) h0
          · exact h1
        have hlt : n / 10 < n := Nat.div_lt_self hpos (by omega)
        rw [ih (n / 10) (by omega), charVal_digitChar _ (Nat.mod_lt _ (by omega))]
        omega

theorem toString_data_inj (m n : Nat)
    (h : (toString m).data = (toString n).data) : m = n := by
  have hm : (toString m).data = Nat.toDigitsCore 10 (m + 1) m [] := rfl
  have hn : (toString n).data = Nat.toDigitsCore 10 (n + 1) n [] := rfl
  have h2 := congrArg decodeDigits (hm ▸ hn ▸ h)
  rwa [decode_toDigitsCore (m + 1) m (Nat.le_refl _),
    decode_toDigitsCore (n + 1) n (Nat.le_refl _)] at h2

theorem toString_nat_isDigit (n : Nat) : ∀ c ∈ (toString n).data, c.isDigit = true := by
  have h : (toString n).data = Nat.toDigitsCore 10 (n + 1) n [] := rfl
  rw [h]
  exact toDigitsCore_isDigit _ _ _ (by simp)

theorem isDigit_ne_underscore (c : Char) (h : c.isDigit = true) : c ≠ '_' := by
  intro hc
  subst hc
  exact absurd h (by decide)

theorem underscore_split_inj : ∀ (l1 l2 r1 r2 : List Char),
    (∀ c ∈ l1, c ≠ '_') → (∀ c ∈ l2, c ≠ '_') →
    l1 ++ '_' :: r1 = l2 ++ '_' :: r2 → l1 = l2 ∧ r1 = r2 := by
  intro l1
  induction l1 with
  | nil =>
      intro l2 r1 r2 h1 h2 heq
      cases l2 with
      | nil => simpa using heq
      | cons x xs =>
          simp only [List.nil_append, List.cons_append, List.cons.injEq] at heq
          exact absurd heq.1.symm (h2 x (List.mem_cons_self x xs))
  | cons x xs ih =>
      intro l2 r1 r2 h1 h2 heq
      cases l2 with
      | nil =>
          simp only [List.nil_append, List.cons_append, List.cons.injEq] at heq
          exact absurd heq.1 (h1 x (List.mem_cons_self x xs))
      | cons y ys =>
          simp only [List.cons_append, List.cons.injEq] at heq
          obtain ⟨hxy, htail⟩ := heq
          obtain ⟨hl, hr⟩ := ih ys r1 r2 (fun c hc => h1 c (List.mem_cons_of_mem _ hc))
            (fun c hc => h2 c (List.mem_cons_of_mem _ hc)) htail
          exact ⟨by rw [hxy, hl], hr⟩

theorem nowId_data (pre : String) (t i : Nat) :
    (nowId pre t i).data =
      pre.data ++ '_' :: ((toString t).data ++ '_' :: (toString i).data) := by
  have hu : ("_" : String).data = ['_'] := rfl
  simp [nowId, String.data_append, hu]

/-- Card ids embed the clock second and loop index unambiguously: equal
ids force equal clock values and equal indices. -/
theorem nowId_inj (pre : String) (t t' i i' : Nat)
    (h : nowId pre t i = nowId pre t' i') : t = t' ∧ i = i' := by
  have hd := congrArg String.data h
  rw [nowId_data, nowId_data] at hd
  have h1 := List.append_cancel_left hd
  simp only [List.cons.injEq, true_and] at h1
  obtain ⟨hT, hI⟩ := underscore_split_inj _ _ _ _
    (fun c hc => isDigit_ne_underscore c (toString_nat_isDigit t c hc))
    (fun c hc => isDigit_ne_underscore c (toString_nat_isDigit t' c hc)) h1
  exact ⟨toString_data_inj t t' hT, toString_data_inj i i' hI⟩

end DigitLemmas

/-- C7 amended: card ids assigned at creation are pairwise distinct
whenever the creating calls differ in loop index (always true inside
one run_once, whose admitted batches get indices 1, 2, ...) or in
wall-clock second (true across cycles separated by at least a second);
the code does not guarantee distinctness for two run_once calls inside
the same second, see the counterexample. -/
theorem C7_amended_ids_distinct (t t' i j : Nat) (h : i ≠ j ∨ t ≠ t') :
    nowId "card" t i ≠ nowId "card" t' j := by
  intro heq
  obtain ⟨ht, hi⟩ := nowId_inj "card" t t' i j heq
  rcases h with h1 | h1
  · exact h1 hi
  · exact h1 ht

/-- Witness for C7 amended: distinct indices in one second, and equal
indices across distinct seconds. -/
theorem C7_amended_ids_distinct_witness :
    ((1 ≠ 2 ∨ 3 ≠ 3) ∧ nowId "card" 3 1 ≠ nowId "card" 3 2) ∧
    ((1 ≠ 1 ∨ 3 ≠ 4) ∧ nowId "card" 3 1 ≠ nowId "card" 4 1) :=
  ⟨⟨by decide, C7_amended_ids_distinct 3 3 1 2 (by decide)⟩,
   ⟨by decide, C7_amended_ids_distinct 3 4 1 1 (by decide)⟩⟩

/-- C4: per-card failure isolation.  With three fresh batches, the card
for b1 is identical whether or not b2 is fetched, and the card for b3
reaches the same terminal status; nothing about b2's stages is
assumed, so this holds in particular when a stage function raises for
b2's card: one card's exception never aborts the rest of the cycle. -/
theorem C4_per_card_isolation {A M : Type} (sch : FlowScheduler A M)
    (st : FlowState A M) (b1 b2 b3 : String) (t : Nat)
    (h1 : st.processed_batches.contains b1 = false)
    (h2 : st.processed_batches.contains b2 = false)
    (h3 : st.processed_batches.contains b3 = false)
    (h12 : b1 ≠ b2) (h13 : b1 ≠ b3) (h23 : b2 ≠ b3) :
    ∃ c1 c3a c3b,
      lookupCard (runOnce sch st [b1, b2, b3] t).cards (nowId "card" t 1) = some c1 ∧
      lookupCard (runOnce sch st [b1, b3] t).cards (nowId "card" t 1) = some c1 ∧
      c1.batch_id = b1 ∧
      lookupCard (runOnce sch st [b1, b2, b3] t).cards (nowId "card" t 3) = some c3a ∧
      lookupCard (runOnce sch st [b1, b3] t).cards (nowId "card" t 2) = some c3b ∧
      c3a.batch_id = b3 ∧ c3b.batch_id = b3 ∧ c3a.status = c3b.status := by
  have hm1 : b1 ∉ st.processed_batches := by simpa using h1
  have hm2 : b2 ∉ st.processed_batches := by simpa using h2
  have hm3 : b3 ∉ st.processed_batches := by simpa using h3
  have hfA : newBatchIds st [b1, b2, b3] = [b1, b2, b3] := by
    simp [newBatchIds, hm1, hm2, hm3]
  have hfB : newBatchIds st [b1, b3] = [b1, b3] := by
    simp [newBatchIds, hm1, hm3]
  have hA : runOnce sch st [b1, b2, b3] t =
      processBatch sch (processBatch sch (processBatch sch st b1 t 1) b2 t 2) b3 t 3 := by
    rw [runOnce, hfA]; rfl
  have hB : runOnce sch st [b1, b3] t =
      processBatch sch (processBatch sch st b1 t 1) b3 t 2 := by
    rw [runOnce, hfB]; rfl
  have hk12 : nowId "card" t 1 ≠ nowId "card" t 2 :=
    C7_amended_ids_distinct t t 1 2 (Or.inl (by omega))
  have hk13 : nowId "card" t 1 ≠ nowId "card" t 3 :=
    C7_amended_ids_distinct t t 1 3 (Or.inl (by omega))
  refine ⟨(runChain sch (ensureCard st b1 t 1).2 (ensureCard st b1 t 1).1 t).1,
    (runChain sch (ensureCard (processBatch sch (processBatch sch st b1 t 1) b2 t 2) b3 t 3).2
      (ensureCard (processBatch sch (processBatch sch st b1 t 1) b2 t 2) b3 t 3).1 t).1,
    (runChain sch (ensureCard (processBatch sch st b1 t 1) b3 t 2).2
      (ensureCard (processBatch sch st b1 t 1) b3 t 2).1 t).1,
    ?_, ?_, ?_, ?_, ?_, ?_, ?_, ?_⟩
  · rw [hA, processBatch_cards, lookupCard_insert_ne _ _ _ _ hk13, processBatch_cards,
      lookupCard_insert_ne _ _ _ _ hk12, processBatch_cards, lookupCard_insert_self]
  · rw [hB, processBatch_cards, lookupCard_insert_ne _ _ _ _ hk12, processBatch_cards,
      lookupCard_insert_self]
  · simp only [runChain_batch_id, ensureCard_fst]
  · rw [hA, processBatch_cards, lookupCard_insert_self]
  · rw [hB, processBatch_cards, lookupCard_insert_self]
  · simp only [runChain_batch_id, ensureCard_fst]
  · simp only [runChain_batch_id, ensureCard_fst]
  · have e3 : (ensureCard (processBatch sch (processBatch sch st b1 t 1) b2 t 2) b3 t 3).1 =
        { (ensureCard (processBatch sch st b1 t 1) b3 t 2).1 with
            card_id := nowId "card" t 3 } := rfl
    rw [e3, runChain_fst_card_id_congr sch _
      (ensureCard (processBatch sch st b1 t 1) b3 t 2).2 _ _ t]

/-- A concrete scheduler whose import stage raises for batch b2 only. -/
def isoSched : FlowScheduler Nat Nat where
  interval_minutes := 0
  import_photos := fun b =>
    if b = "b2" then Except.error "import blew up" else Except.ok { photo_files := [b] }
  ai_client := fun _ _ => Except.ok { status := some "AI_READY", ai_result := some 1 }
  mapper := fun _ _ => Except.ok { status := some "READY_TO_POST", mapped_avito := some 2 }
  poster := fun _ _ => Except.ok { status := some "POSTED", post_url := some "https://a/x" }
  emptyA := 0
  emptyM := 0

/-- Witness for C4: b2's import stage raises, b1 and b3 still get their
cards with matching terminal status. -/
theorem C4_per_card_isolation_witness :
    (isoSched.import_photos "b2" = Except.error "import blew up") ∧
    ((emptyState Nat Nat).processed_batches.contains "b1" = false) ∧
    ((emptyState Nat Nat).processed_batches.contains "b2" = false) ∧
    ((emptyState Nat Nat).processed_batches.contains "b3" = false) ∧
    (∃ c1 c3a c3b,
      lookupCard (runOnce isoSched (emptyState Nat Nat) ["b1", "b2", "b3"] 6).cards
        (nowId "card" 6 1) = some c1 ∧
      lookupCard (runOnce isoSched (emptyState Nat Nat) ["b1", "b3"] 6).cards
        (nowId "card" 6 1) = some c1 ∧
      c1.batch_id = "b1" ∧
      lookupCard (runOnce isoSched (emptyState Nat Nat) ["b1", "b2", "b3"] 6).cards
        (nowId "card" 6 3) = some c3a ∧
      lookupCard (runOnce isoSched (emptyState Nat Nat) ["b1", "b3"] 6).cards
        (nowId "card" 6 2) = some c3b ∧
      c3a.batch_id = "b3" ∧ c3b.batch_id = "b3" ∧ c3a.status = c3b.status) :=
  ⟨rfl, rfl, rfl, rfl,
    C4_per_card_isolation isoSched (emptyState Nat Nat) "b1" "b2" "b3" 6 rfl rfl rfl
      (by decide) (by decide) (by decide)⟩

/-! ### History ordering -/

/-- Whether the stage chain posts the card of a given batch: the status
of the chain run on a fresh card for that batch (any loop index and
ambient state give the same status, see chainPosted_iff). -/
def chainPosted {A M : Type} (sch : FlowScheduler A M) (b : String) (t : Nat) : Bool :=
  (runChain sch (ensureCard (emptyState A M) b t 1).2
    (ensureCard (emptyState A M) b t 1).1 t).1.status == "POSTED"

theorem chainPosted_iff {A M : Type} (sch : FlowScheduler A M) (st : FlowState A M)
    (b : String) (t i : Nat) :
    (runChain sch (ensureCard st b t i).2 (ensureCard st b t i).1 t).1.status = "POSTED" ↔
      chainPosted sch b t = true := by
  have e : (ensureCard st b t i).1 =
      { (ensureCard (emptyState A M) b t 1).1 with card_id := nowId "card" t i } := rfl
  rw [chainPosted, e,
    runChain_fst_card_id_congr sch _ (ensureCard (emptyState A M) b t 1).2 _ _ t]
  simp

theorem processBatch_history {A M : Type} (sch : FlowScheduler A M) (st : FlowState A M)
    (b : String) (t i : Nat) :
    (processBatch sch st b t i).history.map (fun r => r.batch_id) =
      st.history.map (fun r => r.batch_id) ++
        (if chainPosted sch b t then [b] else []) := by
  have hh := runChain_history sch (ensureCard st b t i).2 (ensureCard st b t i).1 t
  have hhist : (ensureCard st b t i).2.history = st.history := rfl
  by_cases hp : (runChain sch (ensureCard st b t i).2 (ensureCard st b t i).1 t).1.status =
      "POSTED"
  · have hcp : chainPosted sch b t = true := (chainPosted_iff sch st b t i).mp hp
    simp only [processBatch, hh.1 hp, hhist, hcp, if_true, List.map_append]
    simp [runChain_batch_id, ensureCard_fst]
  · have hcp : chainPosted sch b t = false := by
      cases h : chainPosted sch b t
      · rfl
      · exact absurd ((chainPosted_iff sch st b t i).mpr h) hp
    simp only [processBatch, hh.2 hp, hhist, hcp]
    simp

theorem runOnceLoop_history {A M : Type} (sch : FlowScheduler A M) (t : Nat) :
    ∀ (l : List String) (st : FlowState A M) (i : Nat),
    (runOnceLoop sch st l t i).history.map (fun r => r.batch_id) =
      st.history.map (fun r => r.batch_id) ++
        l.filter (fun b => chainPosted sch b t) := by
  intro l
  induction l with
  | nil => intro st i; simp [runOnceLoop]
  | cons b rest ih =>
      intro st i
      rw [runOnceLoop, ih, processBatch_history]
      cases hcp : chainPosted sch b t <;> simp [List.filter_cons, hcp]

/-- C6: over a fresh batch list [b1, b2, b3], the publication records
appended to history carry the batches in fetch order restricted to the
batches whose chain reaches POSTED. -/
theorem C6_history_ordering {A M : Type} (sch : FlowScheduler A M) (st : FlowState A M)
    (b1 b2 b3 : String) (t : Nat)
    (h1 : st.processed_batches.contains b1 = false)
    (h2 : st.processed_batches.contains b2 = false)
    (h3 : st.processed_batches.contains b3 = false) :
    (runOnce sch st [b1, b2, b3] t).history.map (fun r => r.batch_id) =
      st.history.map (fun r => r.batch_id) ++
        [b1, b2, b3].filter (fun b => chainPosted sch b t) := by
  have hm1 : b1 ∉ st.processed_batches := by simpa using h1
  have hm2 : b2 ∉ st.processed_batches := by simpa using h2
  have hm3 : b3 ∉ st.processed_batches := by simpa using h3
  have hf : newBatchIds st [b1, b2, b3] = [b1, b2, b3] := by
    simp [newBatchIds, hm1, hm2, hm3]
  rw [runOnce, hf]
  exact runOnceLoop_history sch t [b1, b2, b3] st 1

/-- A concrete scheduler in the shape of the source smoke test: every
stage succeeds except that posting batch x2's card (recognised by its
photo file list) reports NEED_ACTION with a captcha reason. -/
def smokeSched : FlowScheduler Nat Nat where
  interval_minutes := 0
  import_photos := fun b => Except.ok { photo_files := [b] }
  ai_client := fun _ _ => Except.ok { status := some "AI_READY", ai_result := some 1 }
  mapper := fun _ _ => Except.ok { status := some "READY_TO_POST", mapped_avito := some 2 }
  poster := fun _ files =>
    if files = ["x2"] then
      Except.ok { status := some "NEED_ACTION", errors := ["Captcha required"] }
    else Except.ok { status := some "POSTED", post_url := some "https://a/x" }
  emptyA := 0
  emptyM := 0

/-- Witness for C6 mirroring the source smoke test shape: the middle
batch diverts at the posting stage, the others post. -/
theorem C6_history_ordering_witness :
    ((emptyState Nat Nat).processed_batches.contains "x1" = false) ∧
    ((emptyState Nat Nat).processed_batches.contains "x2" = false) ∧
    ((emptyState Nat Nat).processed_batches.contains "x3" = false) ∧
    ((runOnce smokeSched (emptyState Nat Nat) ["x1", "x2", "x3"] 8).history.map
        (fun r => r.batch_id) =
      (emptyState Nat Nat).history.map (fun r => r.batch_id) ++
        ["x1", "x2", "x3"].filter (fun b => chainPosted smokeSched b 8)) ∧
    (["x1", "x2", "x3"].filter (fun b => chainPosted smokeSched b 8) = ["x1", "x3"]) :=
  ⟨rfl, rfl, rfl,
    C6_history_ordering smokeSched (emptyState Nat Nat) "x1" "x2" "x3" 8 rfl rfl rfl,
    by decide⟩

/-! ### One card per batch: the processed-batches invariant -/

/-- Invariant: every card's batch is already marked processed, and no
two cards (dict entries) share a batch id. -/
def StateInv {A M : Type} (st : FlowState A M) : Prop :=
  (∀ p ∈ st.cards, st.processed_batches.contains p.2.batch_id = true) ∧
  (st.cards.map (fun p => p.2.batch_id)).Nodup

theorem nodup_insertCard {A M : Type} (l : List (String × CarCard A M)) (k : String)
    (c : CarCard A M) (hnd : (l.map (fun p => p.2.batch_id)).Nodup)
    (hfresh : ∀ p ∈ l, p.2.batch_id ≠ c.batch_id) :
    ((insertCard l k c).map (fun p => p.2.batch_id)).Nodup := by
  induction l with
  | nil => simp [insertCard]
  | cons q rest ih =>
      rw [insertCard]
      by_cases h : q.1 = k
      · rw [if_pos h]
        simp only [List.map_cons, List.nodup_cons] at hnd ⊢
        refine ⟨fun hmem => ?_, hnd.2⟩
        obtain ⟨p, hp, hpb⟩ := List.mem_map.mp hmem
        exact hfresh p (List.mem_cons_of_mem _ hp) hpb
      · rw [if_neg h]
        simp only [List.map_cons, List.nodup_cons] at hnd ⊢
        refine ⟨fun hmem => ?_, ih hnd.2 (fun p hp => hfresh p (List.mem_cons_of_mem _ hp))⟩
        obtain ⟨p, hp, hpb⟩ := List.mem_map.mp hmem
        rcases mem_insertCard rest k c p hp with hmem2 | hmem2
        · exact hnd.1 (List.mem_map.mpr ⟨p, hmem2, hpb⟩)
        · subst hmem2
          exact hfresh q (List.mem_cons_self _ _) hpb.symm

theorem contains_addProcessed_false (l : List String) (b x : String)
    (hx : l.contains x = false) (hxb : x ≠ b) :
    (addProcessed l b).contains x = false := by
  cases h : (addProcessed l b).contains x
  · rfl
  · rcases contains_addProcessed_elim l b x h with h1 | h1
    · rw [h1] at hx; exact absurd hx (by simp)
    · exact absurd h1 hxb

theorem stateInv_processBatch {A M : Type} (sch : FlowScheduler A M) (st : FlowState A M)
    (b : String) (t i : Nat) (hinv : StateInv st)
    (hb : st.processed_batches.contains b = false) :
    StateInv (processBatch sch st b t i) := by
  obtain ⟨hin, hnd⟩ := hinv
  have hfresh : ∀ p ∈ st.cards, p.2.batch_id ≠ b := by
    intro p hp heq
    have h1 := hin p hp
    rw [heq, hb] at h1
    exact absurd h1 (by simp)
  have hfc : (runChain sch (ensureCard st b t i).2 (ensureCard st b t i).1 t).1.batch_id =
      b := by
    simp only [runChain_batch_id, ensureCard_fst]
  constructor
  · intro p hp
    rw [processBatch_processed]
    rw [processBatch_cards] at hp
    rcases mem_insertCard _ _ _ p hp with h1 | h1
    · exact contains_addProcessed_mono _ _ _ (hin p h1)
    · subst h1
      simp only [hfc]
      exact contains_addProcessed_self _ _
  · rw [processBatch_cards]
    refine nodup_insertCard _ _ _ hnd ?_
    intro p hp heq
    rw [hfc] at heq
    exact hfresh p hp heq

theorem stateInv_runOnceLoop {A M : Type} (sch : FlowScheduler A M) (t : Nat) :
    ∀ (l : List String) (st : FlowState A M) (i : Nat),
    StateInv st → l.Nodup → (∀ x ∈ l, st.processed_batches.contains x = false) →
    StateInv (runOnceLoop sch st l t i) := by
  intro l
  induction l with
  | nil => intro st i hinv _ _; exact hinv
  | cons b rest ih =>
      intro st i hinv hnd hfib
      rw [runOnceLoop]
      obtain ⟨hbnot, hndrest⟩ := List.nodup_cons.mp hnd
      refine ih _ _ (stateInv_processBatch sch st b t i hinv
        (hfib b (List.mem_cons_self _ _))) hndrest ?_
      intro x hx
      rw [processBatch_processed]
      exact contains_addProcessed_false _ _ _
        (hfib x (List.mem_cons_of_mem _ hx)) (fun heq => hbnot (heq ▸ hx))

theorem stateInv_runOnce {A M : Type} (sch : FlowScheduler A M) (st : FlowState A M)
    (batch_ids : List String) (t : Nat) (hinv : StateInv st) (hnd : batch_ids.Nodup) :
    StateInv (runOnce sch st batch_ids t) := by
  rw [runOnce]
  refine stateInv_runOnceLoop sch t _ st 1 hinv (hnd.filter _) ?_
  intro x hx
  have h1 := List.of_mem_filter hx
  simp only [Bool.not_eq_eq_eq_not, Bool.not_true] at h1
  exact h1

theorem nodup_map_filter_length_le_one {α β : Type} [DecidableEq β] (f : α → β) :
    ∀ (l : List α), (l.map f).Nodup → ∀ b, (l.filter (fun x => f x == b)).length ≤ 1 := by
  intro l
  induction l with
  | nil => intro _ b; simp
  | cons x xs ih =>
      intro hnd b
      rw [List.map_cons, List.nodup_cons] at hnd
      obtain ⟨hx, hxs⟩ := hnd
      rw [List.filter_cons]
      by_cases h : f x = b
      · have hrest : xs.filter (fun y => f y == b) = [] := by
          rw [List.filter_eq_nil_iff]
          intro y hy
          simp only [beq_iff_eq]
          intro heq
          exact hx (by rw [← h] at heq; exact List.mem_map.mpr ⟨y, hy, heq⟩)
        rw [if_pos (by simp [h])]
        simp [hrest]
      · rw [if_neg (by simp [h])]
        exact ih hxs b

/-- C9 amended: starting from the empty workflow state, any sequence of
run_once calls whose fetch results are each duplicate-free leaves at
most one card per batch id; the duplicate-free proviso is forced by
the counterexample, where one fetch result repeating a batch id
creates two cards for it. -/
theorem C9_amended_one_card_per_batch {A M : Type} (sch : FlowScheduler A M)
    (cycles : List (List String × Nat)) (hnd : ∀ c ∈ cycles, c.1.Nodup) (b : String) :
    ((runSequence sch (emptyState A M) cycles).cards.filter
      (fun p => p.2.batch_id == b)).length ≤ 1 := by
  have hseq : ∀ (cs : List (List String × Nat)) (st : FlowState A M),
      (∀ c ∈ cs, c.1.Nodup) → StateInv st → StateInv (runSequence sch st cs) := by
    intro cs
    induction cs with
    | nil => intro st _ h; exact h
    | cons c rest ih =>
        intro st hnd' hinv
        rw [runSequence, List.foldl_cons]
        exact ih _ (fun x hx => hnd' x (List.mem_cons_of_mem _ hx))
          (stateInv_runOnce sch st c.1 c.2 hinv (hnd' c (List.mem_cons_self _ _)))
  have hinv : StateInv (runSequence sch (emptyState A M) cycles) :=
    hseq cycles (emptyState A M) hnd ⟨by simp [emptyState], by simp [emptyState]⟩
  exact nodup_map_filter_length_le_one
    (fun p : String × CarCard A M => p.2.batch_id) _ hinv.2 b

/-- Witness for C9 amended: two duplicate-free cycles, the second
re-fetching batch b, leave a single card for b. -/
theorem C9_amended_one_card_per_batch_witness :
    (∀ c ∈ ([(["b"], 0), (["b", "c"], 1)] : List (List String × Nat)), c.1.Nodup) ∧
    ((runSequence okSched (emptyState Nat Nat) [(["b"], 0), (["b", "c"], 1)]).cards.filter
      (fun p => p.2.batch_id == "b")).length ≤ 1 :=
  ⟨by decide,
    C9_amended_one_card_per_batch okSched [(["b"], 0), (["b", "c"], 1)] (by decide) "b"⟩

end FlowSpec
